import Mathlib

/-!
Shallow embedding of `src/terrain_3d_data.h` (Terrain3D region-indexed
spatial data store) and proofs of the specification claims about it.

Modelling conventions:
* `real_t` (32-bit float) values that participate only in ordered
  comparisons are embedded as `ℚ`; raster channel values, which may be
  the not-a-number sentinel, are embedded as `RVal` (`nan` or a `ℚ`).
* C++ `int` is embedded as `Int`; two's-complement bit reinterpretation
  (the `uint32_t` casts) is made explicit through `toU32`.
* The bodies of `set_pixel` / `get_pixel` live in `terrain_3d_data.cpp`,
  which is not part of the examined source; they are modelled from the
  spec (see their doc comments).
-/

namespace Terrain3D

/-- Model of a `real_t` raster channel value: NaN or a rational. -/
inductive RVal where
  | nan : RVal
  | val (q : ℚ) : RVal
deriving DecidableEq

/-- Godot `Color`: four `real_t` channels r, g, b, a. -/
structure Color where
  r : RVal
  g : RVal
  b : RVal
  a : RVal
deriving DecidableEq

/-- Godot `Vector2i`: a pair of C++ `int` coordinates. -/
structure Vector2i where
  x : Int
  y : Int
deriving DecidableEq

/-- Godot `Vector2`: a pair of `real_t` values (used for the height range). -/
structure Vector2 where
  x : ℚ
  y : ℚ
deriving DecidableEq

/-- Godot `Vector3`: a world position. -/
structure Vector3 where
  x : ℚ
  y : ℚ
  z : ℚ
deriving DecidableEq

/-- Map/channel selector from `constants.h`. -/
inductive MapType where
  | TYPE_HEIGHT : MapType
  | TYPE_CONTROL : MapType
  | TYPE_COLOR : MapType
deriving DecidableEq

/-- V2_ZERO from `constants.h`. -/
def V2_ZERO : Vector2 := ⟨0, 0⟩

/-- UINT32_MAX. -/
def UINT32_MAX : Nat := 4294967295

/-- Two's-complement 32-bit pattern of an `int` value (the C++ cast to
`uint32_t`); 4294967296 = 2^32. -/
def toU32 (z : Int) : Nat := (z % 4294967296).toNat

/-- COLOR_NAN from `constants.h`: the no-data pixel, every channel NaN. -/
def COLOR_NAN : Color := ⟨.nan, .nan, .nan, .nan⟩

/-- NaN bit patterns of an IEEE-754 single: exponent bits all ones and a
nonzero mantissa. -/
def isNanPattern (u : Nat) : Bool :=
  (u &&& 0x7F800000 == 0x7F800000) && (u &&& 0x007FFFFF != 0)

/-- Modelled from the spec (the `as_float` bit-reinterpretation utility is
not under src): reinterpret a 32-bit pattern as a `real_t`.  Control-plane
floats are represented here by their own bit pattern; NaN patterns
collapse to `RVal.nan` (spec section 3: absence is the reserved pattern,
decoded as UINT32_MAX). -/
def as_float (u : Nat) : RVal :=
  if isNanPattern (u % 4294967296) then .nan else .val ((u % 4294967296 : Nat) : ℚ)

/-- Modelled from the spec (the `as_uint` bit-reinterpretation utility is
not under src): the 32-bit pattern of a non-NaN `real_t`; inverse of
`as_float` on its non-NaN range. -/
def as_uint (q : ℚ) : Nat := q.num.toNat % 4294967296

/-- Control-plane well-formedness of a stored channel value: it is a value
a `real_t` can actually hold, i.e. NaN or the image under `as_float` of a
non-NaN 32-bit pattern. -/
def isFloat32 : RVal → Prop
  | .nan => True
  | .val q => q.den = 1 ∧ 0 ≤ q.num ∧ q.num < 4294967296 ∧
      isNanPattern q.num.toNat = false

/-- State of `Terrain3DData` (terrain_3d_data.h lines 29-76).  The three
Image arrays `_height_maps` / `_control_maps` / `_color_maps` are merged
into one buffer field indexed by `MapType` and `region_id`; `_regions` (a
Dictionary keyed by region location) is modelled by its key list;
`_region_map` is the 16x16 grid as a total function (stored value is
`region_id + 1`, 0 = no region). -/
structure Terrain3DData where
  _region_size : Int
  _mesh_vertex_spacing : ℚ
  _regions : List Vector2i
  _region_locations : List Vector2i
  _region_map : Nat → Int
  maps : MapType → Int → Vector2i → Color
  _master_height_range : Vector2

namespace Terrain3DData

/-- `static inline const int REGION_MAP_SIZE = 16`. -/
def REGION_MAP_SIZE : Int := 16

/-- Terrain3DData::get_region_map_index, terrain_3d_data.h lines 180-188:
offset the location by `REGION_MAP_VSIZE / 2` componentwise, reject via the
single bitmask test `(uint32_t(loc.x | loc.y) & uint32_t(~0xF)) > 0`
(note `~0xF = -16` as an `int`), otherwise return
`loc.y * REGION_MAP_SIZE + loc.x`.  The C++ bitwise-or of two `int`s is
the or of their two's-complement bit patterns, hence `toU32` on each
operand. -/
def get_region_map_index (p_region_loc : Vector2i) : Int :=
  if (toU32 (p_region_loc.x + REGION_MAP_SIZE / 2) |||
        toU32 (p_region_loc.y + REGION_MAP_SIZE / 2)) &&& toU32 (-16) > 0 then
    -1
  else
    (p_region_loc.y + REGION_MAP_SIZE / 2) * REGION_MAP_SIZE +
      (p_region_loc.x + REGION_MAP_SIZE / 2)

/-- Terrain3DData::get_region_count, terrain_3d_data.h line 88:
`return _region_locations.size()`. -/
def get_region_count (s : Terrain3DData) : Int :=
  (s._region_locations.length : Int)

/-- Terrain3DData::get_region_location, terrain_3d_data.h lines 191-194:
divide world X/Z by `_mesh_vertex_spacing * _region_size`, floor
componentwise, truncate to `Vector2i`. -/
def get_region_location (s : Terrain3DData) (p_global_position : Vector3) : Vector2i :=
  ⟨⌊p_global_position.x / (s._mesh_vertex_spacing * (s._region_size : ℚ))⌋,
    ⌊p_global_position.z / (s._mesh_vertex_spacing * (s._region_size : ℚ))⌋⟩

/-- Terrain3DData::get_region_id, terrain_3d_data.h lines 197-206: with a
valid map index, read `_region_map[map_index] - 1` (0 means no region),
return it when it lies within the active-location count, else -1.  The C++
locals `map_index` and `region_id` are inlined. -/
def get_region_id (s : Terrain3DData) (p_region_loc : Vector2i) : Int :=
  if 0 ≤ get_region_map_index p_region_loc then
    if 0 ≤ s._region_map (get_region_map_index p_region_loc).toNat - 1 ∧
        s._region_map (get_region_map_index p_region_loc).toNat - 1 <
          (s._region_locations.length : Int) then
      s._region_map (get_region_map_index p_region_loc).toNat - 1
    else -1
  else -1

/-- Terrain3DData::get_region_idp, terrain_3d_data.h lines 208-210. -/
def get_region_idp (s : Terrain3DData) (p_global_position : Vector3) : Int :=
  s.get_region_id (s.get_region_location p_global_position)

/-- Terrain3DData::has_regionp, terrain_3d_data.h line 101:
`get_region_idp(p_global_position) != -1`. -/
def has_regionp (s : Terrain3DData) (p_global_position : Vector3) : Bool :=
  s.get_region_idp p_global_position != -1

/-- Modelled from the spec (section 4.3; the coordinate transform inside
set_pixel/get_pixel is in terrain_3d_data.cpp, not under src): the in-tile
pixel coordinate, i.e. the fractional remainder of the world-to-tile
transform scaled back up to pixels. -/
def get_pixel_coord (s : Terrain3DData) (p_global_position : Vector3) : Vector2i :=
  ⟨⌊p_global_position.x / s._mesh_vertex_spacing⌋ -
      (s.get_region_location p_global_position).x * s._region_size,
    ⌊p_global_position.z / s._mesh_vertex_spacing⌋ -
      (s.get_region_location p_global_position).y * s._region_size⟩

/-- Modelled from the spec (section 4.3; get_pixel's body is in
terrain_3d_data.cpp, not under src): resolve the region through the grid
index and registry; with no active region return the no-data sentinel
COLOR_NAN, otherwise read the channel buffer at the in-tile pixel
coordinate. -/
def get_pixel (s : Terrain3DData) (p_map_type : MapType)
    (p_global_position : Vector3) : Color :=
  if s.get_region_idp p_global_position < 0 then COLOR_NAN
  else
    s.maps p_map_type (s.get_region_idp p_global_position)
      (s.get_pixel_coord p_global_position)

/-- Modelled from the spec (section 4.3; set_pixel's body is in
terrain_3d_data.cpp, not under src): resolve the region; silently no-op
when no region is active, otherwise store the pixel in the channel buffer
at the in-tile pixel coordinate. -/
def set_pixel (s : Terrain3DData) (p_map_type : MapType)
    (p_global_position : Vector3) (p_pixel : Color) : Terrain3DData :=
  if s.get_region_idp p_global_position < 0 then s
  else
    { s with maps := fun mt rid pc =>
        if mt = p_map_type ∧ rid = s.get_region_idp p_global_position ∧
            pc = s.get_pixel_coord p_global_position then p_pixel
        else s.maps mt rid pc }

/-- Terrain3DData::get_roughness, terrain_3d_data.h lines 245-247:
the raw 4th channel of the color pixel. -/
def get_roughness (s : Terrain3DData) (p_global_position : Vector3) : RVal :=
  (s.get_pixel .TYPE_COLOR p_global_position).a

/-- Terrain3DData::set_color, terrain_3d_data.h lines 218-222: overwrite
the color pixel, carrying the pre-existing roughness in the 4th channel. -/
def set_color (s : Terrain3DData) (p_global_position : Vector3)
    (p_color : Color) : Terrain3DData :=
  s.set_pixel .TYPE_COLOR p_global_position
    { p_color with a := s.get_roughness p_global_position }

/-- Terrain3DData::get_color, terrain_3d_data.h lines 224-228: read the
color pixel and force the 4th channel to 1.0. -/
def get_color (s : Terrain3DData) (p_global_position : Vector3) : Color :=
  { s.get_pixel .TYPE_COLOR p_global_position with a := .val 1 }

/-- Terrain3DData::set_roughness, terrain_3d_data.h lines 239-243: rewrite
the color pixel with only the 4th channel replaced. -/
def set_roughness (s : Terrain3DData) (p_global_position : Vector3)
    (p_roughness : RVal) : Terrain3DData :=
  s.set_pixel .TYPE_COLOR p_global_position
    { s.get_pixel .TYPE_COLOR p_global_position with a := p_roughness }

/-- Terrain3DData::set_control, terrain_3d_data.h lines 230-232:
`set_pixel(TYPE_CONTROL, pos, Color(as_float(control), 0, 0, 1))`. -/
def set_control (s : Terrain3DData) (p_global_position : Vector3)
    (p_control : Nat) : Terrain3DData :=
  s.set_pixel .TYPE_CONTROL p_global_position
    ⟨as_float p_control, .val 0, .val 0, .val 1⟩

/-- Terrain3DData::get_control, terrain_3d_data.h lines 234-237: read the
first channel of the control pixel; NaN decodes to UINT32_MAX, anything
else to its bit pattern. -/
def get_control (s : Terrain3DData) (p_global_position : Vector3) : Nat :=
  match (s.get_pixel .TYPE_CONTROL p_global_position).r with
  | .nan => UINT32_MAX
  | .val q => as_uint q

/-- Terrain3DData::update_master_height, terrain_3d_data.h lines 249-255:
expand the running range when the new height lies outside it. -/
def update_master_height (s : Terrain3DData) (p_height : ℚ) : Terrain3DData :=
  if p_height < s._master_height_range.x then
    { s with _master_height_range := ⟨p_height, s._master_height_range.y⟩ }
  else if p_height > s._master_height_range.y then
    { s with _master_height_range := ⟨s._master_height_range.x, p_height⟩ }
  else s

/-- Terrain3DData::update_master_heights, terrain_3d_data.h lines 257-264:
two independent comparisons widen min and max; the four branches spell out
the two sequential `if`s of the source (the second test reads the `y`
component, untouched by the first). -/
def update_master_heights (s : Terrain3DData) (p_low_high : Vector2) : Terrain3DData :=
  if p_low_high.x < s._master_height_range.x then
    if p_low_high.y > s._master_height_range.y then
      { s with _master_height_range := ⟨p_low_high.x, p_low_high.y⟩ }
    else
      { s with _master_height_range := ⟨p_low_high.x, s._master_height_range.y⟩ }
  else
    if p_low_high.y > s._master_height_range.y then
      { s with _master_height_range := ⟨s._master_height_range.x, p_low_high.y⟩ }
    else s

end Terrain3DData

/-- One call into the height-range tracker: either
`update_master_height(h)` or `update_master_heights(low, high)`. -/
inductive HeightOp where
  | single (h : ℚ) : HeightOp
  | batch (low high : ℚ) : HeightOp

/-- Apply one tracker call to the state. -/
def applyHeightOp (s : Terrain3DData) : HeightOp → Terrain3DData
  | .single h => s.update_master_height h
  | .batch low high => s.update_master_heights ⟨low, high⟩

/-- Apply a finite sequence of tracker calls in order. -/
def applyHeightOps (s : Terrain3DData) (ops : List HeightOp) : Terrain3DData :=
  ops.foldl applyHeightOp s

/-- Offset location lands inside the 16x16 grid on both axes. -/
def inRange16 (loc : Vector2i) : Prop :=
  0 ≤ loc.x + 8 ∧ loc.x + 8 < 16 ∧ 0 ≤ loc.y + 8 ∧ loc.y + 8 < 16

/-- A concrete store with one active region at location (0,0) (grid cell
136 = 8*16 + 8, stored id 1), region size 64, vertex spacing 1; used by
the witnesses. -/
def sampleState : Terrain3DData where
  _region_size := 64
  _mesh_vertex_spacing := 1
  _regions := [⟨0, 0⟩]
  _region_locations := [⟨0, 0⟩]
  _region_map := fun i => if i = 136 then 1 else 0
  maps := fun _ _ _ => COLOR_NAN
  _master_height_range := V2_ZERO

lemma toU32_lt (z : Int) : toU32 z < 4294967296 := by
  unfold toU32
  omega

lemma toU32_lt16_iff (z : Int) (h1 : -2147483648 ≤ z) (h2 : z < 2147483648) :
    toU32 z < 16 ↔ 0 ≤ z ∧ z < 16 := by
  unfold toU32
  omega

lemma land_eq_zero_iff (x m : Nat) :
    x &&& m = 0 ↔ ∀ i, x.testBit i = true → m.testBit i = false := by
  constructor
  · intro h i hx
    have h2 : (x &&& m).testBit i = false := by
      rw [h]
      exact Nat.zero_testBit i
    rw [Nat.testBit_and, hx] at h2
    simpa using h2
  · intro h
    apply Nat.zero_of_testBit_eq_false
    intro i
    rw [Nat.testBit_and]
    cases hx : x.testBit i with
    | false => simp
    | true => simp [h i hx]

lemma land_mask16_eq_zero_iff (n : Nat) (hn : n < 4294967296) :
    n &&& 4294967280 = 0 ↔ n < 16 := by
  rw [land_eq_zero_iff]
  constructor
  · intro h
    have h4 : ∀ i, 4 ≤ i → n.testBit i = false := by
      intro i hi
      rcases Nat.lt_or_ge i 32 with h32 | h32
      · cases hb : n.testBit i with
        | false => rfl
        | true =>
          have hm : Nat.testBit 4294967280 i = true := by
            interval_cases i <;> decide
          have hf := h i hb
          rw [hm] at hf
          exact absurd hf (by simp)
      · refine Nat.testBit_lt_two_pow (lt_of_lt_of_le hn ?_)
        calc (4294967296 : Nat) = 2 ^ 32 := by norm_num
          _ ≤ 2 ^ i := Nat.pow_le_pow_right (by norm_num) h32
    have hlt : n < 2 ^ 4 := Nat.lt_pow_two_of_testBit n h4
    omega
  · intro h16 i hi
    have hi4 : i < 4 := by
      by_contra hge
      push_neg at hge
      have hge2 : 2 ^ i ≤ n := Nat.testBit_implies_ge hi
      have h16le : (16 : Nat) ≤ 2 ^ i := by
        calc (16 : Nat) = 2 ^ 4 := by norm_num
          _ ≤ 2 ^ i := Nat.pow_le_pow_right (by norm_num) hge
      omega
    interval_cases i <;> decide

lemma lor_land_eq_zero (a b m : Nat) :
    (a ||| b) &&& m = 0 ↔ a &&& m = 0 ∧ b &&& m = 0 := by
  simp only [land_eq_zero_iff, Nat.testBit_or]
  constructor
  · intro h
    constructor
    · intro i hi
      exact h i (by simp [hi])
    · intro i hi
      exact h i (by simp [hi])
  · rintro ⟨h1, h2⟩ i hi
    cases ha : a.testBit i with
    | true => exact h1 i ha
    | false =>
      cases hb : b.testBit i with
      | true => exact h2 i hb
      | false =>
        rw [ha, hb] at hi
        simp at hi

lemma get_region_map_index_char (loc : Vector2i)
    (hx1 : -2147483648 ≤ loc.x) (hx2 : loc.x < 2147483640)
    (hy1 : -2147483648 ≤ loc.y) (hy2 : loc.y < 2147483640) :
    (inRange16 loc →
      Terrain3DData.get_region_map_index loc = (loc.y + 8) * 16 + (loc.x + 8)) ∧
    (¬ inRange16 loc → Terrain3DData.get_region_map_index loc = -1) := by
  have hmask : toU32 (-16) = 4294967280 := by decide
  have h8 : Terrain3DData.REGION_MAP_SIZE / 2 = 8 := by decide
  have hcond : (toU32 (loc.x + 8) ||| toU32 (loc.y + 8)) &&& 4294967280 = 0 ↔
      inRange16 loc := by
    rw [lor_land_eq_zero,
      land_mask16_eq_zero_iff _ (toU32_lt _),
      land_mask16_eq_zero_iff _ (toU32_lt _),
      toU32_lt16_iff _ (by omega) (by omega),
      toU32_lt16_iff _ (by omega) (by omega)]
    unfold inRange16
    tauto
  unfold Terrain3DData.get_region_map_index
  rw [h8, hmask]
  constructor
  · intro hin
    have h0 : (toU32 (loc.x + 8) ||| toU32 (loc.y + 8)) &&& 4294967280 = 0 :=
      hcond.mpr hin
    rw [if_neg (by omega)]
    have h16 : Terrain3DData.REGION_MAP_SIZE = 16 := rfl
    rw [h16]
  · intro hnin
    have h0 : (toU32 (loc.x + 8) ||| toU32 (loc.y + 8)) &&& 4294967280 ≠ 0 :=
      fun h => hnin (hcond.mp h)
    rw [if_pos (by omega)]

/-- Claim C2: for every integer tile location (within `int` range),
`get_region_map_index` returns -1 exactly when, after offsetting both axes
by 8, either offset coordinate falls outside the interval from 0 to 16;
otherwise it returns `offset.y * 16 + offset.x`, a valid index below 256.
In particular location (8,8) returns -1 and location (7,7) returns the
valid index 255. -/
theorem get_region_map_index_spec (loc : Vector2i)
    (hx1 : -2147483648 ≤ loc.x) (hx2 : loc.x < 2147483640)
    (hy1 : -2147483648 ≤ loc.y) (hy2 : loc.y < 2147483640) :
    (Terrain3DData.get_region_map_index loc = -1 ↔ ¬ inRange16 loc) ∧
    (inRange16 loc →
      Terrain3DData.get_region_map_index loc = (loc.y + 8) * 16 + (loc.x + 8) ∧
      0 ≤ Terrain3DData.get_region_map_index loc ∧
      Terrain3DData.get_region_map_index loc < 256) ∧
    Terrain3DData.get_region_map_index ⟨8, 8⟩ = -1 ∧
    Terrain3DData.get_region_map_index ⟨7, 7⟩ = 255 := by
  obtain ⟨hin, hout⟩ := get_region_map_index_char loc hx1 hx2 hy1 hy2
  refine ⟨⟨fun h1 hr => ?_, hout⟩, fun hr => ?_, by decide, by decide⟩
  · have := hin hr
    rw [h1] at this
    unfold inRange16 at hr
    omega
  · refine ⟨hin hr, ?_⟩
    rw [hin hr]
    unfold inRange16 at hr
    constructor <;> omega

/-- Witness for C2 at the concrete locations (8,8) (rejected) and
(7,7) (accepted with index 255). -/
theorem get_region_map_index_spec_witness :
    Terrain3DData.get_region_map_index ⟨8, 8⟩ = -1 ∧
    Terrain3DData.get_region_map_index ⟨7, 7⟩ = 255 :=
  ⟨(get_region_map_index_spec ⟨8, 8⟩ (by decide) (by decide) (by decide)
      (by decide)).2.2.1,
    (get_region_map_index_spec ⟨7, 7⟩ (by decide) (by decide) (by decide)
      (by decide)).2.2.2⟩

/-- Claim C3: `get_region_id` returns -1 exactly when the location fails
the grid bounds test, the grid cell stores 0 (empty), or the stored value
minus one is outside the active-location count; any other return value is
non-negative and strictly below the active-location list length. -/
theorem get_region_id_spec (s : Terrain3DData) (loc : Vector2i)
    (hx1 : -2147483648 ≤ loc.x) (hx2 : loc.x < 2147483640)
    (hy1 : -2147483648 ≤ loc.y) (hy2 : loc.y < 2147483640) :
    (s.get_region_id loc = -1 ↔
      (Terrain3DData.get_region_map_index loc = -1 ∨
        s._region_map (Terrain3DData.get_region_map_index loc).toNat = 0 ∨
        ¬(0 ≤ s._region_map (Terrain3DData.get_region_map_index loc).toNat - 1 ∧
          s._region_map (Terrain3DData.get_region_map_index loc).toNat - 1 <
            (s._region_locations.length : Int)))) ∧
    (s.get_region_id loc ≠ -1 →
      0 ≤ s.get_region_id loc ∧
      s.get_region_id loc < (s._region_locations.length : Int)) := by
  obtain ⟨hin, hout⟩ := get_region_map_index_char loc hx1 hx2 hy1 hy2
  by_cases hr : inRange16 loc
  · have hmi := hin hr
    have hpos : 0 ≤ Terrain3DData.get_region_map_index loc := by
      rw [hmi]
      unfold inRange16 at hr
      omega
    have hne : Terrain3DData.get_region_map_index loc ≠ -1 := by omega
    unfold Terrain3DData.get_region_id
    rw [if_pos hpos]
    by_cases hc : 0 ≤ s._region_map (Terrain3DData.get_region_map_index loc).toNat - 1 ∧
        s._region_map (Terrain3DData.get_region_map_index loc).toNat - 1 <
          (s._region_locations.length : Int)
    · rw [if_pos hc]
      constructor
      · constructor
        · intro h
          omega
        · rintro (h | h | h)
          · exact absurd h hne
          · omega
          · exact absurd hc h
      · intro _
        exact hc
    · rw [if_neg hc]
      constructor
      · constructor
        · intro _
          exact Or.inr (Or.inr hc)
        · intro _
          rfl
      · intro h
        exact absurd rfl h
  · have hmi := hout hr
    unfold Terrain3DData.get_region_id
    rw [if_neg (by rw [hmi]; decide)]
    constructor
    · constructor
      · intro _
        exact Or.inl hmi
      · intro _
        rfl
    · intro h
      exact absurd rfl h

/-- Witness for C3: in the sample store, location (0,0) resolves to a
region id that is non-negative and below the active-location count. -/
theorem get_region_id_spec_witness :
    sampleState.get_region_id ⟨0, 0⟩ ≠ -1 ∧
    (0 ≤ sampleState.get_region_id ⟨0, 0⟩ ∧
      sampleState.get_region_id ⟨0, 0⟩ <
        (sampleState._region_locations.length : Int)) :=
  ⟨by decide,
    (get_region_id_spec sampleState ⟨0, 0⟩ (by decide) (by decide) (by decide)
        (by decide)).2 (by decide)⟩

/-- Claim C5: `get_region_location` is the componentwise floor of the world
X/Z coordinates divided by `_mesh_vertex_spacing * _region_size`; with
spacing 1 and region size 64, world position (70, 0, 5) maps to tile
location (1, 0). -/
theorem get_region_location_spec (s : Terrain3DData) (p : Vector3) :
    s.get_region_location p =
      ⟨⌊p.x / (s._mesh_vertex_spacing * (s._region_size : ℚ))⌋,
        ⌊p.z / (s._mesh_vertex_spacing * (s._region_size : ℚ))⌋⟩ ∧
    (s._mesh_vertex_spacing = 1 → s._region_size = 64 →
      s.get_region_location ⟨70, 0, 5⟩ = ⟨1, 0⟩) := by
  refine ⟨rfl, fun h1 h2 => ?_⟩
  unfold Terrain3DData.get_region_location
  rw [h1, h2]
  simp only [Vector2i.mk.injEq]
  constructor <;> norm_num

/-- Witness for C5 at the sample store (spacing 1, region size 64) and
world position (70, 0, 5). -/
theorem get_region_location_spec_witness :
    sampleState._mesh_vertex_spacing = 1 ∧ sampleState._region_size = 64 ∧
    sampleState.get_region_location ⟨70, 0, 5⟩ = ⟨1, 0⟩ :=
  ⟨rfl, rfl, (get_region_location_spec sampleState ⟨70, 0, 5⟩).2 rfl rfl⟩

/-- Claim C8: `get_region_count` is the length of the active-location list
`_region_locations` in every state, and is unaffected by the contents of
the canonical `_regions` map (which may retain pending-deletion tiles). -/
theorem get_region_count_spec (s : Terrain3DData) :
    s.get_region_count = (s._region_locations.length : Int) ∧
    (∀ regs : List Vector2i,
      Terrain3DData.get_region_count { s with _regions := regs } =
        s.get_region_count) :=
  ⟨rfl, fun _ => rfl⟩

lemma update_master_height_expand (s : Terrain3DData) (h : ℚ) :
    (s.update_master_height h)._master_height_range.x ≤
      s._master_height_range.x ∧
    s._master_height_range.y ≤
      (s.update_master_height h)._master_height_range.y := by
  unfold Terrain3DData.update_master_height
  split
  · rename_i hlt
    exact ⟨le_of_lt hlt, le_refl _⟩
  · split
    · rename_i hgt
      exact ⟨le_refl _, le_of_lt hgt⟩
    · exact ⟨le_refl _, le_refl _⟩

lemma update_master_heights_expand (s : Terrain3DData) (lh : Vector2) :
    (s.update_master_heights lh)._master_height_range.x ≤
      s._master_height_range.x ∧
    s._master_height_range.y ≤
      (s.update_master_heights lh)._master_height_range.y := by
  unfold Terrain3DData.update_master_heights
  split
  · rename_i hx
    split
    · rename_i hy
      exact ⟨le_of_lt hx, le_of_lt hy⟩
    · exact ⟨le_of_lt hx, le_refl _⟩
  · split
    · rename_i hy
      exact ⟨le_refl _, le_of_lt hy⟩
    · exact ⟨le_refl _, le_refl _⟩

lemma applyHeightOp_expand (s : Terrain3DData) (op : HeightOp) :
    (applyHeightOp s op)._master_height_range.x ≤ s._master_height_range.x ∧
    s._master_height_range.y ≤ (applyHeightOp s op)._master_height_range.y := by
  cases op with
  | single h => exact update_master_height_expand s h
  | batch low high => exact update_master_heights_expand s ⟨low, high⟩

lemma applyHeightOps_expand (ops : List HeightOp) :
    ∀ s : Terrain3DData,
      (applyHeightOps s ops)._master_height_range.x ≤
        s._master_height_range.x ∧
      s._master_height_range.y ≤
        (applyHeightOps s ops)._master_height_range.y := by
  induction ops with
  | nil => exact fun s => ⟨le_refl _, le_refl _⟩
  | cons op rest ih =>
    intro s
    have h1 := applyHeightOp_expand s op
    have h2 := ih (applyHeightOp s op)
    exact ⟨le_trans h2.1 h1.1, le_trans h1.2 h2.2⟩

lemma update_master_height_contains (s : Terrain3DData) (h : ℚ)
    (hle : s._master_height_range.x ≤ s._master_height_range.y) :
    (s.update_master_height h)._master_height_range.x ≤ h ∧
    h ≤ (s.update_master_height h)._master_height_range.y := by
  unfold Terrain3DData.update_master_height
  split
  · rename_i hlt
    exact ⟨le_refl h, le_trans (le_of_lt hlt) hle⟩
  · rename_i hnlt
    split
    · rename_i hgt
      exact ⟨le_trans hle (le_of_lt hgt), le_refl h⟩
    · rename_i hngt
      exact ⟨le_of_not_lt hnlt, le_of_not_lt hngt⟩

/-- Claim C4: any finite sequence of update_master_height /
update_master_heights calls never narrows the running range (final min at
most the starting min, final max at least the starting max), and after
`update_master_height(h)` on a well-ordered range the range contains h. -/
theorem update_master_height_monotone (s : Terrain3DData)
    (ops : List HeightOp) (h : ℚ) :
    ((applyHeightOps s ops)._master_height_range.x ≤
        s._master_height_range.x ∧
      s._master_height_range.y ≤
        (applyHeightOps s ops)._master_height_range.y) ∧
    (s._master_height_range.x ≤ s._master_height_range.y →
      (s.update_master_height h)._master_height_range.x ≤ h ∧
      h ≤ (s.update_master_height h)._master_height_range.y) :=
  ⟨applyHeightOps_expand ops s, fun hle => update_master_height_contains s h hle⟩

/-- Witness for C4 at the sample store (range (0,0)), one batch call and
one single call with height 3. -/
theorem update_master_height_monotone_witness :
    sampleState._master_height_range.x ≤ sampleState._master_height_range.y ∧
    ((applyHeightOps sampleState [HeightOp.batch (-3) 7,
          HeightOp.single 5])._master_height_range.x ≤
        sampleState._master_height_range.x ∧
      sampleState._master_height_range.y ≤
        (applyHeightOps sampleState [HeightOp.batch (-3) 7,
            HeightOp.single 5])._master_height_range.y) ∧
    ((sampleState.update_master_height 3)._master_height_range.x ≤ 3 ∧
      (3 : ℚ) ≤ (sampleState.update_master_height 3)._master_height_range.y) :=
  ⟨le_refl _,
    (update_master_height_monotone sampleState
        [HeightOp.batch (-3) 7, HeightOp.single 5] 3).1,
    (update_master_height_monotone sampleState
        [HeightOp.batch (-3) 7, HeightOp.single 5] 3).2 (le_refl _)⟩

/-- Claim C9: starting from the initial range V2_ZERO = (0,0), any
sequence of update_master_height / update_master_heights calls leaves a
range with min at most 0 and max at least 0 (hence min at most max). -/
theorem master_height_range_contains_zero (s : Terrain3DData)
    (ops : List HeightOp) (hinit : s._master_height_range = V2_ZERO) :
    (applyHeightOps s ops)._master_height_range.x ≤ 0 ∧
    0 ≤ (applyHeightOps s ops)._master_height_range.y ∧
    (applyHeightOps s ops)._master_height_range.x ≤
      (applyHeightOps s ops)._master_height_range.y := by
  have h := applyHeightOps_expand ops s
  rw [hinit] at h
  exact ⟨h.1, h.2, le_trans h.1 h.2⟩

/-- Witness for C9 at the sample store, whose range is initialized to
V2_ZERO, after one batch call. -/
theorem master_height_range_contains_zero_witness :
    sampleState._master_height_range = V2_ZERO ∧
    ((applyHeightOps sampleState [HeightOp.batch (-3) 7])._master_height_range.x ≤ 0 ∧
      0 ≤ (applyHeightOps sampleState
          [HeightOp.batch (-3) 7])._master_height_range.y ∧
      (applyHeightOps sampleState [HeightOp.batch (-3) 7])._master_height_range.x ≤
        (applyHeightOps sampleState
          [HeightOp.batch (-3) 7])._master_height_range.y) :=
  ⟨rfl, master_height_range_contains_zero sampleState
      [HeightOp.batch (-3) 7] rfl⟩

lemma get_region_id_mem (s : Terrain3DData) (loc : Vector2i) :
    s.get_region_id loc = -1 ∨
    (0 ≤ s.get_region_id loc ∧
      s.get_region_id loc < (s._region_locations.length : Int)) := by
  unfold Terrain3DData.get_region_id
  split
  · split
    · rename_i hc
      exact Or.inr hc
    · exact Or.inl rfl
  · exact Or.inl rfl

lemma has_regionp_iff (s : Terrain3DData) (p : Vector3) :
    s.has_regionp p = true ↔ s.get_region_idp p ≠ -1 := by
  unfold Terrain3DData.has_regionp
  simp [bne_iff_ne]

lemma has_regionp_false_iff (s : Terrain3DData) (p : Vector3) :
    s.has_regionp p = false ↔ s.get_region_idp p = -1 := by
  rw [← Bool.not_eq_true, has_regionp_iff]
  simp

lemma get_region_idp_nonneg (s : Terrain3DData) (p : Vector3)
    (h : s.has_regionp p = true) : 0 ≤ s.get_region_idp p := by
  have h1 := (has_regionp_iff s p).mp h
  unfold Terrain3DData.get_region_idp at h1 ⊢
  rcases get_region_id_mem s (s.get_region_location p) with h2 | h2
  · exact absurd h2 h1
  · exact h2.1

lemma get_region_idp_update_maps (s : Terrain3DData)
    (f : MapType → Int → Vector2i → Color) (p : Vector3) :
    Terrain3DData.get_region_idp { s with maps := f } p = s.get_region_idp p :=
  rfl

lemma get_pixel_coord_update_maps (s : Terrain3DData)
    (f : MapType → Int → Vector2i → Color) (p : Vector3) :
    Terrain3DData.get_pixel_coord { s with maps := f } p = s.get_pixel_coord p :=
  rfl

lemma get_pixel_set_pixel (s : Terrain3DData) (mt : MapType) (p : Vector3)
    (c : Color) (h : s.has_regionp p = true) :
    Terrain3DData.get_pixel (s.set_pixel mt p c) mt p = c := by
  have h0 := get_region_idp_nonneg s p h
  unfold Terrain3DData.set_pixel
  rw [if_neg (by omega)]
  unfold Terrain3DData.get_pixel
  rw [get_region_idp_update_maps, get_pixel_coord_update_maps]
  rw [if_neg (by omega)]
  exact if_pos ⟨rfl, rfl, rfl⟩

lemma sample_region_location :
    sampleState.get_region_location ⟨0, 0, 0⟩ = ⟨0, 0⟩ := by
  simp [Terrain3DData.get_region_location, sampleState]

lemma sample_has_region : sampleState.has_regionp ⟨0, 0, 0⟩ = true := by
  unfold Terrain3DData.has_regionp Terrain3DData.get_region_idp
  rw [sample_region_location]
  decide

/-- Claim C1: inside an active tile, `set_pixel` then `get_pixel` on the
same channel and position returns the written pixel unchanged; the color
read (`get_color`) additionally forces the 4th channel to 1.0, and a
control write whose stored float is a NaN pattern reads back through
`get_control` as UINT32_MAX while any other control write round-trips to
its own 32-bit pattern. -/
theorem set_get_pixel_roundtrip (s : Terrain3DData) (mt : MapType)
    (p : Vector3) (v : Color) (u : Nat) (h : s.has_regionp p = true) :
    Terrain3DData.get_pixel (s.set_pixel mt p v) mt p = v ∧
    Terrain3DData.get_color (s.set_pixel .TYPE_COLOR p v) p =
      { v with a := .val 1 } ∧
    (isNanPattern (u % 4294967296) = true →
      Terrain3DData.get_control (s.set_control p u) p = UINT32_MAX) ∧
    (isNanPattern (u % 4294967296) = false →
      Terrain3DData.get_control (s.set_control p u) p = u % 4294967296) := by
  refine ⟨get_pixel_set_pixel s mt p v h, ?_, ?_, ?_⟩
  · unfold Terrain3DData.get_color
    rw [get_pixel_set_pixel s .TYPE_COLOR p v h]
  · intro hnan
    unfold Terrain3DData.set_control Terrain3DData.get_control
    rw [get_pixel_set_pixel s .TYPE_CONTROL p _ h]
    unfold as_float
    rw [if_pos hnan]
  · intro hnan
    unfold Terrain3DData.set_control Terrain3DData.get_control
    rw [get_pixel_set_pixel s .TYPE_CONTROL p _ h]
    unfold as_float
    rw [if_neg (by simp [hnan])]
    show as_uint ((u % 4294967296 : Nat) : ℚ) = u % 4294967296
    unfold as_uint
    rw [Rat.num_natCast]
    omega

/-- Witness for C1: in the sample store at the origin, a written height
pixel reads back unchanged. -/
theorem set_get_pixel_roundtrip_witness :
    sampleState.has_regionp ⟨0, 0, 0⟩ = true ∧
    Terrain3DData.get_pixel
        (sampleState.set_pixel .TYPE_HEIGHT ⟨0, 0, 0⟩
          ⟨.val (25 / 2), .val 0, .val 0, .val 1⟩)
        .TYPE_HEIGHT ⟨0, 0, 0⟩ =
      ⟨.val (25 / 2), .val 0, .val 0, .val 1⟩ :=
  ⟨sample_has_region,
    (set_get_pixel_roundtrip sampleState .TYPE_HEIGHT ⟨0, 0, 0⟩
        ⟨.val (25 / 2), .val 0, .val 0, .val 1⟩ 0 sample_has_region).1⟩

/-- Claim C6: `get_color` returns the stored color pixel with the 4th
channel forced to exactly 1.0 and the first three channels untouched,
while `get_roughness` returns the raw 4th channel of the same pixel. -/
theorem get_color_forces_alpha (s : Terrain3DData) (p : Vector3) :
    (s.get_color p).a = .val 1 ∧
    (s.get_color p).r = (s.get_pixel .TYPE_COLOR p).r ∧
    (s.get_color p).g = (s.get_pixel .TYPE_COLOR p).g ∧
    (s.get_color p).b = (s.get_pixel .TYPE_COLOR p).b ∧
    s.get_roughness p = (s.get_pixel .TYPE_COLOR p).a :=
  ⟨rfl, rfl, rfl, rfl, rfl⟩

/-- Claim C7: on a control pixel holding a genuine `real_t` value,
`get_control` returns UINT32_MAX exactly when the underlying pixel read
yields the NaN sentinel; otherwise it returns the 32-bit reinterpretation
of the stored float; in particular a position with no active region always
reads as UINT32_MAX. -/
theorem get_control_sentinel (s : Terrain3DData) (p : Vector3)
    (hwf : isFloat32 ((s.get_pixel .TYPE_CONTROL p).r)) :
    (s.get_control p = UINT32_MAX ↔
      (s.get_pixel .TYPE_CONTROL p).r = .nan) ∧
    (∀ q : ℚ, (s.get_pixel .TYPE_CONTROL p).r = .val q →
      s.get_control p = as_uint q) ∧
    (s.has_regionp p = false → s.get_control p = UINT32_MAX) := by
  refine ⟨?_, ?_, ?_⟩
  · cases hr : (s.get_pixel .TYPE_CONTROL p).r with
    | nan =>
      unfold Terrain3DData.get_control
      rw [hr]
      simp
    | val q =>
      rw [hr] at hwf
      unfold isFloat32 at hwf
      obtain ⟨hden, hnum0, hnumlt, hnp⟩ := hwf
      unfold Terrain3DData.get_control
      rw [hr]
      show as_uint q = UINT32_MAX ↔ RVal.val q = RVal.nan
      constructor
      · intro hu
        exfalso
        unfold as_uint at hu
        unfold UINT32_MAX at hu
        have hq : q.num.toNat = 4294967295 := by omega
        rw [hq] at hnp
        exact absurd hnp (by decide)
      · intro hq
        exact RVal.noConfusion hq
  · intro q hq
    unfold Terrain3DData.get_control
    rw [hq]
  · intro hf
    have hidp := (has_regionp_false_iff s p).mp hf
    have hpix : s.get_pixel .TYPE_CONTROL p = COLOR_NAN := by
      unfold Terrain3DData.get_pixel
      rw [if_pos (by rw [hidp]; decide)]
    unfold Terrain3DData.get_control
    rw [hpix]
    rfl

lemma sample_control_pixel :
    sampleState.get_pixel .TYPE_CONTROL ⟨0, 0, 0⟩ = COLOR_NAN := by
  unfold Terrain3DData.get_pixel
  split <;> rfl

lemma sample_control_wf :
    isFloat32 ((sampleState.get_pixel .TYPE_CONTROL ⟨0, 0, 0⟩).r) := by
  rw [sample_control_pixel]
  exact trivial

/-- Witness for C7 at the sample store at the origin, whose control pixel
is the NaN no-data value. -/
theorem get_control_sentinel_witness :
    isFloat32 ((sampleState.get_pixel .TYPE_CONTROL ⟨0, 0, 0⟩).r) ∧
    (sampleState.get_control ⟨0, 0, 0⟩ = UINT32_MAX ↔
      (sampleState.get_pixel .TYPE_CONTROL ⟨0, 0, 0⟩).r = .nan) :=
  ⟨sample_control_wf,
    (get_control_sentinel sampleState ⟨0, 0, 0⟩ sample_control_wf).1⟩

/-- Claim C10: on an active tile, `set_color` stores the incoming color
with the 4th channel set to the pre-existing roughness (so `get_roughness`
is unchanged by it), and `set_roughness` replaces only the 4th channel of
the stored pixel (so the first three color channels are unchanged). -/
theorem set_color_roughness_frame (s : Terrain3DData) (p : Vector3)
    (c : Color) (rough : RVal) (h : s.has_regionp p = true) :
    Terrain3DData.get_pixel (s.set_color p c) .TYPE_COLOR p =
      { c with a := s.get_roughness p } ∧
    Terrain3DData.get_roughness (s.set_color p c) p = s.get_roughness p ∧
    (Terrain3DData.get_pixel (s.set_roughness p rough) .TYPE_COLOR p).r =
      (s.get_pixel .TYPE_COLOR p).r ∧
    (Terrain3DData.get_pixel (s.set_roughness p rough) .TYPE_COLOR p).g =
      (s.get_pixel .TYPE_COLOR p).g ∧
    (Terrain3DData.get_pixel (s.set_roughness p rough) .TYPE_COLOR p).b =
      (s.get_pixel .TYPE_COLOR p).b := by
  have h1 : Terrain3DData.get_pixel (s.set_color p c) .TYPE_COLOR p =
      { c with a := s.get_roughness p } := by
    unfold Terrain3DData.set_color
    exact get_pixel_set_pixel s .TYPE_COLOR p _ h
  have h2 : Terrain3DData.get_pixel (s.set_roughness p rough) .TYPE_COLOR p =
      { s.get_pixel .TYPE_COLOR p with a := rough } := by
    unfold Terrain3DData.set_roughness
    exact get_pixel_set_pixel s .TYPE_COLOR p _ h
  refine ⟨h1, ?_, ?_, ?_, ?_⟩
  · unfold Terrain3DData.get_roughness
    rw [h1]
    rfl
  · rw [h2]
  · rw [h2]
  · rw [h2]

/-- Witness for C10: in the sample store at the origin, writing a color
leaves the roughness channel unchanged. -/
theorem set_color_roughness_frame_witness :
    sampleState.has_regionp ⟨0, 0, 0⟩ = true ∧
    Terrain3DData.get_roughness
        (sampleState.set_color ⟨0, 0, 0⟩ ⟨.val 1, .val (1 / 2), .val 0, .val 0⟩)
        ⟨0, 0, 0⟩ =
      sampleState.get_roughness ⟨0, 0, 0⟩ :=
  ⟨sample_has_region,
    (set_color_roughness_frame sampleState ⟨0, 0, 0⟩
        ⟨.val 1, .val (1 / 2), .val 0, .val 0⟩ (.val 0) sample_has_region).2.1⟩

end Terrain3D
